import Mathlib

/-!
Shallow embedding of `src/lib.rs` of the `wgpu_test` repository: a small
renderer that turns a fixed scene of rounded rectangles into vertex/index
buffers, uploads a per-frame window uniform, and drives a redraw/resize/error
loop. Machine floats (`f32`) are embedded as rationals (the arithmetic the
claims mention — `center ± size/2` — is exact in `f32` for the operations
involved); `u16`/`u32` casts are embedded as `% 2^16` / `% 2^32` on `Nat`.
-/

/-- Rust `struct Fill { color: [f32; 4] }`. -/
structure Fill where
  color : ℚ × ℚ × ℚ × ℚ
deriving DecidableEq

/-- Rust `struct Stroke { color: [f32; 3], width: f32 }`. -/
structure Stroke where
  color : ℚ × ℚ × ℚ
  width : ℚ
deriving DecidableEq

/-- Rust `struct Rect` from `src/lib.rs`: a scene rectangle whose `position`
is its center. -/
structure Rect where
  position : ℚ × ℚ
  size : ℚ × ℚ
  border_radius : ℕ
  fill : Option Fill
  stroke : Option Stroke
  z_index : ℚ
  softness : ℚ
deriving DecidableEq

/-- Rust `struct RectVertex`: one corner of a quad, carrying the whole
per-rectangle shading parameter set. -/
structure RectVertex where
  position : ℚ × ℚ
  z_index : ℚ
  color : ℚ × ℚ × ℚ × ℚ
  border_radius : ℚ
  rect_pos : ℚ × ℚ
  rect_size : ℚ × ℚ
  rect_softness : ℚ
deriving DecidableEq

/-- The compiled-in scene, Rust `const RECTANGLES: &[Rect]` (the `f32`
literal `0.7` is embedded as the rational it denotes in source text). -/
def RECTANGLES : List Rect :=
  [ { position := (200, 200)
      size := (100, 100)
      border_radius := 30
      fill := some { color := (0, 0, 0, 7/10) }
      stroke := none
      z_index := 1/2
      softness := 5 },
    { position := (198, 198)
      size := (100, 100)
      border_radius := 30
      fill := some { color := (1, 0, 0, 1) }
      stroke := none
      z_index := 0
      softness := 1 } ]

/-- The four `vertices.push(RectVertex { .. })` calls of the loop body in
`State::new`, for a rectangle whose fill unwrapped to `f`: corners in the
order (+w/2,−h/2), (+w/2,+h/2), (−w/2,+h/2), (−w/2,−h/2). -/
def rectVertexList (r : Rect) (f : Fill) : List RectVertex :=
  [ { position := (r.position.1 + r.size.1 / 2, r.position.2 - r.size.2 / 2)
      z_index := r.z_index
      color := f.color
      border_radius := (r.border_radius : ℚ)
      rect_pos := r.position
      rect_size := r.size
      rect_softness := r.softness },
    { position := (r.position.1 + r.size.1 / 2, r.position.2 + r.size.2 / 2)
      z_index := r.z_index
      color := f.color
      border_radius := (r.border_radius : ℚ)
      rect_pos := r.position
      rect_size := r.size
      rect_softness := r.softness },
    { position := (r.position.1 - r.size.1 / 2, r.position.2 + r.size.2 / 2)
      z_index := r.z_index
      color := f.color
      border_radius := (r.border_radius : ℚ)
      rect_pos := r.position
      rect_size := r.size
      rect_softness := r.softness },
    { position := (r.position.1 - r.size.1 / 2, r.position.2 - r.size.2 / 2)
      z_index := r.z_index
      color := f.color
      border_radius := (r.border_radius : ℚ)
      rect_pos := r.position
      rect_size := r.size
      rect_softness := r.softness } ]

/-- The vertex pushes for one rectangle; `rect_i.fill.unwrap()` panicking on
`none` is embedded as `Option`. -/
def rectVertices (r : Rect) : Option (List RectVertex) :=
  r.fill.map (rectVertexList r)

/-- The six `indices.push((i * 4 + k) as u16)` calls of the loop body in
`State::new`, for rectangle index `i`: triangles (0,2,1) and (0,3,2) offset
by the base index `i*4`, each value truncated by the `as u16` cast. -/
def quadIndices (i : ℕ) : List ℕ :=
  [ (i * 4) % 2 ^ 16, (i * 4 + 2) % 2 ^ 16, (i * 4 + 1) % 2 ^ 16,
    (i * 4) % 2 ^ 16, (i * 4 + 3) % 2 ^ 16, (i * 4 + 2) % 2 ^ 16 ]

/-- The generator loop `for i in 0..RECTANGLES.len()` of `State::new`,
started at index `i`: pushes the four vertices then the six indices for each
rectangle, failing (the Rust code panics) at the first rectangle whose
`fill` is absent. -/
def generateAux : ℕ → List Rect → Option (List RectVertex × List ℕ)
  | _, [] => some ([], [])
  | i, r :: rs =>
    match rectVertices r with
    | none => none
    | some vs =>
      match generateAux (i + 1) rs with
      | none => none
      | some (vrest, irest) => some (vs ++ vrest, quadIndices i ++ irest)

/-- The whole vertex/index generation of `State::new` for a scene. -/
def generate (scene : List Rect) : Option (List RectVertex × List ℕ) :=
  generateAux 0 scene

/-- Rust `let num_vertices: u32 = (RECTANGLES.len() * 4) as u32`. -/
def num_vertices (scene : List Rect) : ℕ :=
  scene.length * 4 % 2 ^ 32

/-- Rust `let num_indices: u32 = (RECTANGLES.len() * 6) as u32`. -/
def num_indices (scene : List Rect) : ℕ :=
  scene.length * 6 % 2 ^ 32

/-- Rust `struct WindowUniform { size: [f32; 2], scale_factor: f32,
_padding: f32 }`. -/
structure WindowUniform where
  size : ℚ × ℚ
  scale_factor : ℚ
  _padding : ℚ
deriving DecidableEq

/-- The live `winit` window, as the code reads it: `inner_size()` (a
`PhysicalSize<u32>`) and `scale_factor()`. External, mutable state. -/
structure WinState where
  width : ℕ
  height : ℕ
  scale_factor : ℚ
deriving DecidableEq

/-- The width/height part of `wgpu::SurfaceConfiguration` (the other fields
— usage, format, present/alpha mode — are fixed at startup and never touched
by the code the claims are about). -/
structure SurfaceConfiguration where
  width : ℕ
  height : ℕ
deriving DecidableEq

/-- The fields of Rust `struct State` that the per-frame code reads or
writes: the stored `size`, the surface `config`, the live `window`, and the
contents of the window-uniform GPU buffer. -/
structure State where
  config : SurfaceConfiguration
  size : ℕ × ℕ
  window : WinState
  window_buffer : WindowUniform
deriving DecidableEq

/-- Rust `wgpu::SurfaceError`, the error type of `State::render`. -/
inductive SurfaceError
  | Timeout
  | Outdated
  | Lost
  | OutOfMemory
deriving DecidableEq

/-- Rust `winit::event_loop::ControlFlow`, as the event-loop closure uses it. -/
inductive ControlFlow
  | Poll
  | Wait
  | Exit
deriving DecidableEq

/-- Rust `State::resize`: when both dimensions of `new_size` are strictly
positive, store the size, update the configuration and reconfigure the
surface; otherwise do nothing. The second component records the
configuration passed to `surface.configure`, `none` when no reconfigure
happened. -/
def resize (s : State) (new_size : ℕ × ℕ) :
    State × Option SurfaceConfiguration :=
  if 0 < new_size.1 ∧ 0 < new_size.2 then
    let c : SurfaceConfiguration := { width := new_size.1, height := new_size.2 }
    ({ s with size := new_size, config := c }, some c)
  else
    (s, none)

/-- Rust `State::update`: overwrite the window-uniform buffer with the live
window's inner size and scale factor, padding written as `0.0`. -/
def update (s : State) : State :=
  { s with
    window_buffer :=
      { size := ((s.window.width : ℚ), (s.window.height : ℚ))
        scale_factor := s.window.scale_factor
        _padding := 0 } }

/-- The observable outcome of one `Event::RedrawRequested` arm of the event
loop: the state afterwards, the control flow afterwards, the configuration
passed to `surface.configure` if any, the error printed by `eprintln!` if
any, whether a redraw was requested inside the arm, and whether the frame
was presented. -/
structure StepOut where
  state : State
  control : ControlFlow
  reconfigured : Option SurfaceConfiguration
  logged : Option SurfaceError
  redraw_requested : Bool
  presented : Bool
deriving DecidableEq

/-- The `Event::RedrawRequested` arm of the event-loop closure in `run`:
`state.update()` then `match state.render()`; `Ok` presents the frame,
`Lost` calls `state.resize(state.size)`, `OutOfMemory` sets the control flow
to `Exit`, any other error is printed. `res` is the result surface
acquisition/rendering produced this tick (`none` for `Ok`). -/
def redrawStep (s : State) (res : Option SurfaceError) (cf : ControlFlow) :
    StepOut :=
  let s1 := update s
  match res with
  | none =>
    { state := s1, control := cf, reconfigured := none, logged := none
      redraw_requested := false, presented := true }
  | some SurfaceError.Lost =>
    let r := resize s1 s1.size
    { state := r.1, control := cf, reconfigured := r.2, logged := none
      redraw_requested := false, presented := false }
  | some SurfaceError.OutOfMemory =>
    { state := s1, control := ControlFlow.Exit, reconfigured := none
      logged := none, redraw_requested := false, presented := false }
  | some e =>
    { state := s1, control := cf, reconfigured := none, logged := some e
      redraw_requested := false, presented := false }

/-- A filled test rectangle used to instantiate theorems on concrete input. -/
def filledRect : Rect :=
  { position := (0, 0)
    size := (2, 2)
    border_radius := 0
    fill := some { color := (1, 1, 1, 1) }
    stroke := none
    z_index := 0
    softness := 0 }

/-- A stroke-only test rectangle (its `fill` is absent). -/
def strokeOnlyRect : Rect :=
  { position := (0, 0)
    size := (2, 2)
    border_radius := 0
    fill := none
    stroke := some { color := (1, 1, 1), width := 1 }
    z_index := 0
    softness := 0 }

/-- The index slice the generator emitted for rectangle `i`, read off an
(optional) generation result. -/
def ixSlice (o : Option (List RectVertex × List ℕ)) (i : ℕ) :
    Option (List ℕ) :=
  o.map fun p => (p.2.drop (6 * i)).take 6

theorem length_rectVertexList (r : Rect) (f : Fill) :
    (rectVertexList r f).length = 4 := rfl

theorem length_quadIndices (i : ℕ) : (quadIndices i).length = 6 := rfl

theorem drop_append_block {α : Type} (l₁ l₂ : List α) (k n : ℕ)
    (h : l₁.length = k) : (l₁ ++ l₂).drop (k + n) = l₂.drop n := by
  subst h
  rw [List.drop_append_eq_append_drop]
  simp [List.drop_eq_nil_of_le]

theorem generateAux_some_lengths (scene : List Rect) :
    ∀ (i0 : ℕ) (vs : List RectVertex) (ix : List ℕ),
      generateAux i0 scene = some (vs, ix) →
      vs.length = 4 * scene.length ∧ ix.length = 6 * scene.length := by
  induction scene with
  | nil =>
    intro i0 vs ix h
    simp only [generateAux, Option.some.injEq, Prod.mk.injEq] at h
    obtain ⟨h1, h2⟩ := h
    subst h1
    subst h2
    simp
  | cons r rs IH =>
    intro i0 vs ix h
    simp only [generateAux] at h
    cases hr : rectVertices r with
    | none => rw [hr] at h; exact absurd h (by simp)
    | some vl =>
      rw [hr] at h
      cases hg : generateAux (i0 + 1) rs with
      | none => rw [hg] at h; exact absurd h (by simp)
      | some p =>
        rw [hg] at h
        simp only [Option.some.injEq] at h
        obtain ⟨hvl, hlen⟩ : vl.length = 4 ∧
            p.1.length = 4 * rs.length ∧ p.2.length = 6 * rs.length := by
          obtain ⟨f, _, hf⟩ := Option.map_eq_some'.1 hr
          exact ⟨hf ▸ length_rectVertexList r f,
            IH (i0 + 1) p.1 p.2 (by rw [hg])⟩
        simp only [Prod.mk.injEq] at h
        obtain ⟨hv, hx⟩ := h
        subst hv
        subst hx
        simp [hvl, hlen.1, hlen.2, length_quadIndices, List.length_append,
          Nat.mul_succ, List.length_cons]
        omega

theorem generateAux_slice (scene : List Rect) :
    ∀ (i0 : ℕ) (vs : List RectVertex) (ix : List ℕ),
      generateAux i0 scene = some (vs, ix) →
      ∀ (j : ℕ) (hj : j < scene.length),
        ∃ f, (scene.get ⟨j, hj⟩).fill = some f ∧
          (vs.drop (4 * j)).take 4 = rectVertexList (scene.get ⟨j, hj⟩) f ∧
          (ix.drop (6 * j)).take 6 = quadIndices (i0 + j) := by
  induction scene with
  | nil =>
    intro i0 vs ix h j hj
    exact absurd hj (by simp)
  | cons r rs IH =>
    intro i0 vs ix h j hj
    simp only [generateAux] at h
    cases hr : rectVertices r with
    | none => rw [hr] at h; exact absurd h (by simp)
    | some vl =>
      rw [hr] at h
      cases hg : generateAux (i0 + 1) rs with
      | none => rw [hg] at h; exact absurd h (by simp)
      | some p =>
        rw [hg] at h
        simp only [Option.some.injEq, Prod.mk.injEq] at h
        obtain ⟨hv, hx⟩ := h
        subst hv
        subst hx
        obtain ⟨f, hf, hfl⟩ := Option.map_eq_some'.1 hr
        cases j with
        | zero =>
          refine ⟨f, by simpa using hf, ?_, ?_⟩
          · have h1 : vl.length = 4 := by rw [← hfl]; rfl
            have h2 : List.take 4 (vl ++ p.1) = rectVertexList r f := by
              rw [List.take_left' h1, ← hfl]
            simpa using h2
          · have h3 : List.take 6 (quadIndices i0 ++ p.2) = quadIndices i0 :=
              List.take_left' (length_quadIndices i0)
            simpa using h3
        | succ k =>
          have hk : k < rs.length := by
            simpa [Nat.succ_lt_succ_iff] using hj
          obtain ⟨f0, hf0, hv0, hx0⟩ := IH (i0 + 1) p.1 p.2 (by rw [hg]) k hk
          refine ⟨f0, ?_, ?_, ?_⟩
          · simpa using hf0
          · have : vl ++ p.1 = rectVertexList r f ++ p.1 := by rw [hfl]
            rw [this, show 4 * (k + 1) = 4 + 4 * k by ring,
              drop_append_block (rectVertexList r f) p.1 4 (4 * k) rfl]
            simpa using hv0
          · rw [show 6 * (k + 1) = 6 + 6 * k by ring,
              drop_append_block (quadIndices i0) p.2 6 (6 * k) rfl]
            have : i0 + (k + 1) = i0 + 1 + k := by ring
            rw [this]
            simpa using hx0

theorem generateAux_isSome (scene : List Rect) :
    ∀ i0 : ℕ, (generateAux i0 scene).isSome ↔ ∀ r ∈ scene, r.fill.isSome := by
  induction scene with
  | nil => intro i0; simp [generateAux]
  | cons r rs IH =>
    intro i0
    simp only [generateAux]
    cases hr : rectVertices r with
    | none =>
      have : r.fill = none := by
        cases hf : r.fill with
        | none => rfl
        | some f => rw [rectVertices, hf] at hr; exact absurd hr (by simp)
      simp [this]
    | some vl =>
      have hf : r.fill.isSome := by
        obtain ⟨f, hf, _⟩ := Option.map_eq_some'.1 hr
        simp [hf]
      cases hg : generateAux (i0 + 1) rs with
      | none =>
        have := (IH (i0 + 1)).symm
        simp [hg] at this
        simp [hf]
        obtain ⟨r0, hr0, hr0f⟩ := this
        exact ⟨r0, hr0, hr0f⟩
      | some p =>
        have : ∀ r0 ∈ rs, r0.fill.isSome := by
          have := (IH (i0 + 1)).1
          simp [hg] at this
          exact this
        simp [hf]
        intro r0 hr0
        exact this r0 hr0

/-- The fill of the test rectangle `filledRect`. -/
def exFill : Fill := { color := (1, 1, 1, 1) }

/-- The vertex array the generator produces for the scene `[filledRect]`. -/
def exVerts : List RectVertex := rectVertexList filledRect exFill

/-- The index array the generator produces for the scene `[filledRect]`. -/
def exIx : List ℕ := [0, 2, 1, 0, 3, 2]

theorem generate_filledRect : generate [filledRect] = some (exVerts, exIx) := by
  simp [generate, generateAux, rectVertices, filledRect, exVerts, exIx,
    quadIndices, exFill]

/-- A scene large enough that `(len * 4) as u32` and `(len * 6) as u32`
wrap: 2^30 rectangles, all filled. -/
def hugeScene : List Rect := List.replicate (2 ^ 30) filledRect

/-- A scene of 16385 filled rectangles, one more than fits the `u16` index
space of four vertices per rectangle. -/
def bigScene : List Rect := List.replicate 16385 filledRect

theorem replicate_filled_isSome (n : ℕ) :
    ∀ r ∈ List.replicate n filledRect, r.fill.isSome := by
  intro r hr
  rw [List.eq_of_mem_replicate hr]
  rfl

/-- Claim C1: for every rectangle in the scene, the vertex generator emits
exactly four vertices whose position fields are, in this fixed order,
(center.x+size.x/2, center.y−size.y/2), (center.x+size.x/2,
center.y+size.y/2), (center.x−size.x/2, center.y+size.y/2),
(center.x−size.x/2, center.y−size.y/2). -/
theorem C1_corner_positions (scene : List Rect) (vs : List RectVertex)
    (ix : List ℕ) (h : generate scene = some (vs, ix)) (i : ℕ)
    (hi : i < scene.length) :
    ((vs.drop (4 * i)).take 4).map RectVertex.position =
      [ ((scene.get ⟨i, hi⟩).position.1 + (scene.get ⟨i, hi⟩).size.1 / 2,
         (scene.get ⟨i, hi⟩).position.2 - (scene.get ⟨i, hi⟩).size.2 / 2),
        ((scene.get ⟨i, hi⟩).position.1 + (scene.get ⟨i, hi⟩).size.1 / 2,
         (scene.get ⟨i, hi⟩).position.2 + (scene.get ⟨i, hi⟩).size.2 / 2),
        ((scene.get ⟨i, hi⟩).position.1 - (scene.get ⟨i, hi⟩).size.1 / 2,
         (scene.get ⟨i, hi⟩).position.2 + (scene.get ⟨i, hi⟩).size.2 / 2),
        ((scene.get ⟨i, hi⟩).position.1 - (scene.get ⟨i, hi⟩).size.1 / 2,
         (scene.get ⟨i, hi⟩).position.2 - (scene.get ⟨i, hi⟩).size.2 / 2) ] := by
  obtain ⟨f, hf, hv, hx⟩ := generateAux_slice scene 0 vs ix h i hi
  rw [hv]
  simp [rectVertexList]

/-- Witness for C1 on the one-rectangle scene `[filledRect]`. -/
theorem C1_corner_positions_witness :
    ((exVerts.drop (4 * 0)).take 4).map RectVertex.position =
      [((1 : ℚ), (-1 : ℚ)), (1, 1), (-1, 1), (-1, -1)] := by
  have h := C1_corner_positions [filledRect] exVerts exIx generate_filledRect
    0 (by decide)
  exact h.trans (by norm_num [filledRect])

/-- Claim C2 does not hold as stated: the recorded counts are `u32` casts,
`(len * 4) as u32` and `(len * 6) as u32`, so on a scene of 2^30 filled
rectangles `num_vertices` is 0 while 4·N is 2^32 (and `num_indices` is
2^31, not 6·N). The arrays themselves still have lengths 4·N and 6·N. -/
theorem C2_counterexample :
    (∀ r ∈ hugeScene, r.fill.isSome) ∧
    (generate hugeScene).isSome ∧
    num_vertices hugeScene = 0 ∧
    4 * hugeScene.length = 2 ^ 32 ∧
    ¬ num_vertices hugeScene = 4 * hugeScene.length ∧
    ¬ num_indices hugeScene = 6 * hugeScene.length := by
  have hall : ∀ r ∈ hugeScene, r.fill.isSome := replicate_filled_isSome (2 ^ 30)
  have hlen : hugeScene.length = 2 ^ 30 := List.length_replicate _ _
  have k1 : ∀ l : List Rect, l.length = 2 ^ 30 → num_vertices l = 0 := by
    intro l hl
    unfold num_vertices
    rw [hl]
    norm_num
  have k2 : ∀ l : List Rect, l.length = 2 ^ 30 → 4 * l.length = 2 ^ 32 := by
    intro l hl
    rw [hl]
    norm_num
  have k3 : ∀ l : List Rect, l.length = 2 ^ 30 →
      ¬ num_vertices l = 4 * l.length := by
    intro l hl
    unfold num_vertices
    rw [hl]
    norm_num
  have k4 : ∀ l : List Rect, l.length = 2 ^ 30 →
      ¬ num_indices l = 6 * l.length := by
    intro l hl
    unfold num_indices
    rw [hl]
    norm_num
  exact ⟨hall, (generateAux_isSome hugeScene 0).2 hall, k1 hugeScene hlen,
    k2 hugeScene hlen, k3 hugeScene hlen, k4 hugeScene hlen⟩

/-- Claim C2, amended: for every scene of N filled rectangles the generator
produces a vertex array of length exactly 4·N and an index array of length
exactly 6·N; the recorded counts `num_vertices` and `num_indices` are the
`u32` casts `4·N mod 2^32` and `6·N mod 2^32`, and hence equal 4·N and 6·N
whenever those products are below 2^32. -/
theorem C2_lengths_and_counts (scene : List Rect) (vs : List RectVertex)
    (ix : List ℕ) (h : generate scene = some (vs, ix)) :
    vs.length = 4 * scene.length ∧ ix.length = 6 * scene.length ∧
    (scene.length * 4 < 2 ^ 32 → num_vertices scene = 4 * scene.length) ∧
    (scene.length * 6 < 2 ^ 32 → num_indices scene = 6 * scene.length) := by
  obtain ⟨h1, h2⟩ := generateAux_some_lengths scene 0 vs ix h
  refine ⟨h1, h2, ?_, ?_⟩ <;>
    intro hlt <;>
    simp [num_vertices, num_indices, Nat.mod_eq_of_lt hlt] <;>
    omega

/-- Witness for the amended C2 on the one-rectangle scene `[filledRect]`. -/
theorem C2_lengths_and_counts_witness :
    exVerts.length = 4 * [filledRect].length ∧
    exIx.length = 6 * [filledRect].length ∧
    num_vertices [filledRect] = 4 * [filledRect].length ∧
    num_indices [filledRect] = 6 * [filledRect].length := by
  have h := C2_lengths_and_counts [filledRect] exVerts exIx generate_filledRect
  exact ⟨h.1, h.2.1, h.2.2.1 (by norm_num), h.2.2.2 (by norm_num)⟩

/-- Claim C3 does not hold as stated: the indices are pushed through an
`as u16` cast, so on a scene of 16385 filled rectangles the six indices
emitted for rectangle 16384 are [0, 2, 1, 0, 3, 2] — the base 4·16384 =
65536 wrapped to 0 — none of which lies in [4·16384, 4·16384+4). -/
theorem C3_counterexample :
    16384 < bigScene.length ∧
    ixSlice (generate bigScene) 16384 = some [0, 2, 1, 0, 3, 2] ∧
    ¬ 4 * 16384 ≤ 0 := by
  have hlen : bigScene.length = 16385 := List.length_replicate _ _
  have hall : ∀ r ∈ bigScene, r.fill.isSome := replicate_filled_isSome 16385
  have key : ∀ l : List Rect, l.length = 16385 → (∀ r ∈ l, r.fill.isSome) →
      16384 < l.length ∧ ixSlice (generate l) 16384 = some [0, 2, 1, 0, 3, 2] := by
    intro l hl hf
    have hi : (16384 : ℕ) < l.length := by rw [hl]; norm_num
    have hsome : (generate l).isSome := (generateAux_isSome l 0).2 hf
    obtain ⟨p, hp⟩ := Option.isSome_iff_exists.1 hsome
    obtain ⟨vs, ix⟩ := p
    obtain ⟨f, hfi, hv, hx⟩ := generateAux_slice l 0 vs ix hp 16384 hi
    refine ⟨hi, ?_⟩
    rw [hp]
    unfold ixSlice
    rw [Option.map_some', hx]
    norm_num [quadIndices]
  exact ⟨(key bigScene hlen hall).1, (key bigScene hlen hall).2, by norm_num⟩

/-- Claim C3, amended: for every rectangle i of the scene the generator
emits exactly six indices, the triangles (0,2,1) and (0,3,2) offset by the
base 4·i and reduced modulo 2^16 by the `as u16` cast; whenever
4·i + 4 ≤ 2^16 (i.e. i ≤ 16383) they equal the plain offsets and every
index value lies in [4·i, 4·i+4), referencing only that rectangle's own
four vertices. -/
theorem C3_own_quad_indices (scene : List Rect) (vs : List RectVertex)
    (ix : List ℕ) (h : generate scene = some (vs, ix)) (i : ℕ)
    (hi : i < scene.length) (hsmall : 4 * i + 4 ≤ 2 ^ 16) :
    (ix.drop (6 * i)).take 6 =
      [4 * i, 4 * i + 2, 4 * i + 1, 4 * i, 4 * i + 3, 4 * i + 2] ∧
    ∀ v ∈ (ix.drop (6 * i)).take 6, 4 * i ≤ v ∧ v < 4 * i + 4 := by
  obtain ⟨f, hf, hv, hx⟩ := generateAux_slice scene 0 vs ix h i hi
  rw [Nat.zero_add] at hx
  have h16 : (2 : ℕ) ^ 16 = 65536 := by norm_num
  have e0 : i * 4 % 2 ^ 16 = 4 * i := by
    rw [Nat.mod_eq_of_lt (by omega)]; ring
  have e1 : (i * 4 + 1) % 2 ^ 16 = 4 * i + 1 := by
    rw [Nat.mod_eq_of_lt (by omega)]; ring_nf
  have e2 : (i * 4 + 2) % 2 ^ 16 = 4 * i + 2 := by
    rw [Nat.mod_eq_of_lt (by omega)]; ring_nf
  have e3 : (i * 4 + 3) % 2 ^ 16 = 4 * i + 3 := by
    rw [Nat.mod_eq_of_lt (by omega)]; ring_nf
  have hq : (ix.drop (6 * i)).take 6 =
      [4 * i, 4 * i + 2, 4 * i + 1, 4 * i, 4 * i + 3, 4 * i + 2] := by
    rw [hx]
    unfold quadIndices
    rw [e0, e1, e2, e3]
  refine ⟨hq, ?_⟩
  intro v hv0
  rw [hq] at hv0
  simp only [List.mem_cons, List.not_mem_nil, or_false] at hv0
  rcases hv0 with h0 | h0 | h0 | h0 | h0 | h0 <;> subst h0 <;> omega

/-- Witness for the amended C3 on the one-rectangle scene `[filledRect]`,
rectangle index 0. -/
theorem C3_own_quad_indices_witness :
    (exIx.drop (6 * 0)).take 6 =
      [4 * 0, 4 * 0 + 2, 4 * 0 + 1, 4 * 0, 4 * 0 + 3, 4 * 0 + 2] :=
  (C3_own_quad_indices [filledRect] exVerts exIx generate_filledRect 0
    (by decide) (by norm_num)).1

/-- Claim C4: every one of a rectangle's four emitted vertices carries that
rectangle's full shading parameter set — the fill color, the border radius,
the rectangle center as `rect_pos`, the rectangle size as `rect_size`, and
the softness. -/
theorem C4_shading_parameters (scene : List Rect) (vs : List RectVertex)
    (ix : List ℕ) (h : generate scene = some (vs, ix)) (i : ℕ)
    (hi : i < scene.length) (f : Fill)
    (hf : (scene.get ⟨i, hi⟩).fill = some f) :
    ((vs.drop (4 * i)).take 4).map RectVertex.color =
      List.replicate 4 f.color ∧
    ((vs.drop (4 * i)).take 4).map RectVertex.border_radius =
      List.replicate 4 (((scene.get ⟨i, hi⟩).border_radius : ℚ)) ∧
    ((vs.drop (4 * i)).take 4).map RectVertex.rect_pos =
      List.replicate 4 (scene.get ⟨i, hi⟩).position ∧
    ((vs.drop (4 * i)).take 4).map RectVertex.rect_size =
      List.replicate 4 (scene.get ⟨i, hi⟩).size ∧
    ((vs.drop (4 * i)).take 4).map RectVertex.rect_softness =
      List.replicate 4 (scene.get ⟨i, hi⟩).softness := by
  obtain ⟨f0, hf0, hv, hx⟩ := generateAux_slice scene 0 vs ix h i hi
  have hff : f0 = f := by
    rw [hf0] at hf
    exact (Option.some.injEq _ _ ▸ hf)
  subst hff
  rw [hv]
  refine ⟨?_, ?_, ?_, ?_, ?_⟩ <;> simp [rectVertexList, List.replicate]

/-- Witness for C4 on the one-rectangle scene `[filledRect]`. -/
theorem C4_shading_parameters_witness :
    ((exVerts.drop (4 * 0)).take 4).map RectVertex.color =
      List.replicate 4 exFill.color ∧
    ((exVerts.drop (4 * 0)).take 4).map RectVertex.border_radius =
      List.replicate 4 ((filledRect.border_radius : ℚ)) ∧
    ((exVerts.drop (4 * 0)).take 4).map RectVertex.rect_pos =
      List.replicate 4 filledRect.position ∧
    ((exVerts.drop (4 * 0)).take 4).map RectVertex.rect_size =
      List.replicate 4 filledRect.size ∧
    ((exVerts.drop (4 * 0)).take 4).map RectVertex.rect_softness =
      List.replicate 4 filledRect.softness :=
  C4_shading_parameters [filledRect] exVerts exIx generate_filledRect 0
    (by decide) exFill rfl

/-- Claim C8: a scene containing a rectangle with no fill color is not
accepted silently — the generation fails (the Rust code panics on the
`unwrap`) and produces no vertex array at all. -/
theorem C8_missing_fill (scene : List Rect) (r : Rect) (hr : r ∈ scene)
    (hf : r.fill = none) : generate scene = none := by
  apply Option.not_isSome_iff_eq_none.1
  intro hs
  have hall := (generateAux_isSome scene 0).1 hs
  have := hall r hr
  rw [hf] at this
  exact absurd this (by simp)

/-- Witness for C8 on the one-rectangle scene `[strokeOnlyRect]`. -/
theorem C8_missing_fill_witness : generate [strokeOnlyRect] = none :=
  C8_missing_fill [strokeOnlyRect] strokeOnlyRect (List.mem_singleton.2 rfl)
    rfl

/-- Claim C10: index values are `(i*4+k) as u16`, i.e. reduced modulo 2^16;
when 4·(i+1) ≤ 2^16 they lie in [4·i, 4·i+4), and for every rectangle index
i ≥ 16384 every emitted index value is strictly below 4·i — the cast wrapped
and the indices no longer reference that rectangle's own vertices. -/
theorem C10_index_cast_wraps (scene : List Rect) (vs : List RectVertex)
    (ix : List ℕ) (h : generate scene = some (vs, ix)) (i : ℕ)
    (hi : i < scene.length) :
    (ix.drop (6 * i)).take 6 =
      [ i * 4 % 2 ^ 16, (i * 4 + 2) % 2 ^ 16, (i * 4 + 1) % 2 ^ 16,
        i * 4 % 2 ^ 16, (i * 4 + 3) % 2 ^ 16, (i * 4 + 2) % 2 ^ 16 ] ∧
    (4 * (i + 1) ≤ 2 ^ 16 →
      ∀ v ∈ (ix.drop (6 * i)).take 6, 4 * i ≤ v ∧ v < 4 * i + 4) ∧
    (16384 ≤ i → ∀ v ∈ (ix.drop (6 * i)).take 6, v < 4 * i) := by
  obtain ⟨f, hf, hv, hx⟩ := generateAux_slice scene 0 vs ix h i hi
  rw [Nat.zero_add] at hx
  have h16 : (2 : ℕ) ^ 16 = 65536 := by norm_num
  have hq : (ix.drop (6 * i)).take 6 =
      [ i * 4 % 2 ^ 16, (i * 4 + 2) % 2 ^ 16, (i * 4 + 1) % 2 ^ 16,
        i * 4 % 2 ^ 16, (i * 4 + 3) % 2 ^ 16, (i * 4 + 2) % 2 ^ 16 ] := by
    rw [hx]; rfl
  refine ⟨hq, ?_, ?_⟩
  · intro hsmall v hv0
    rw [hq] at hv0
    simp only [List.mem_cons, List.not_mem_nil, or_false] at hv0
    rcases hv0 with h0 | h0 | h0 | h0 | h0 | h0 <;> subst h0 <;>
      rw [Nat.mod_eq_of_lt (by omega)] <;> omega
  · intro hbig v hv0
    rw [hq] at hv0
    simp only [List.mem_cons, List.not_mem_nil, or_false] at hv0
    have hlt0 : i * 4 % 2 ^ 16 < 2 ^ 16 := Nat.mod_lt _ (by omega)
    have hlt1 : (i * 4 + 1) % 2 ^ 16 < 2 ^ 16 := Nat.mod_lt _ (by omega)
    have hlt2 : (i * 4 + 2) % 2 ^ 16 < 2 ^ 16 := Nat.mod_lt _ (by omega)
    have hlt3 : (i * 4 + 3) % 2 ^ 16 < 2 ^ 16 := Nat.mod_lt _ (by omega)
    rcases hv0 with h0 | h0 | h0 | h0 | h0 | h0 <;> subst h0 <;> omega

/-- Witness for C10 on the one-rectangle scene `[filledRect]`, rectangle
index 0. -/
theorem C10_index_cast_wraps_witness :
    (exIx.drop (6 * 0)).take 6 =
      [ 0 * 4 % 2 ^ 16, (0 * 4 + 2) % 2 ^ 16, (0 * 4 + 1) % 2 ^ 16,
        0 * 4 % 2 ^ 16, (0 * 4 + 3) % 2 ^ 16, (0 * 4 + 2) % 2 ^ 16 ] :=
  (C10_index_cast_wraps [filledRect] exVerts exIx generate_filledRect 0
    (by decide)).1

/-- A concrete live-window state used to instantiate frame-controller
theorems. -/
def exWindow : WinState := { width := 640, height := 480, scale_factor := 2 }

/-- A concrete controller state whose stored size differs from the live
window's size (so a cached value would be visibly wrong). -/
def exStateA : State :=
  { config := { width := 800, height := 600 }
    size := (800, 600)
    window := exWindow
    window_buffer := { size := (800, 600), scale_factor := 1, _padding := 0 } }

/-- A second concrete state sharing `exStateA`'s live window but differing
in every stored field. -/
def exStateB : State :=
  { config := { width := 320, height := 200 }
    size := (320, 200)
    window := exWindow
    window_buffer := { size := (0, 0), scale_factor := 0, _padding := 1 } }

/-- Claim C5: each frame, `update` writes into the window-uniform buffer
exactly the live window's inner width and height and scale factor, read
fresh on that frame (the written value depends only on the live window, not
on any stored field), with the padding written as 0; no stored field of the
controller changes. -/
theorem C5_uniform_fresh_upload (s t : State) (hw : s.window = t.window) :
    (update s).window_buffer =
      { size := ((s.window.width : ℚ), (s.window.height : ℚ))
        scale_factor := s.window.scale_factor
        _padding := 0 } ∧
    (update s).window_buffer = (update t).window_buffer ∧
    (update s).size = s.size ∧
    (update s).config = s.config ∧
    (update s).window = s.window := by
  refine ⟨rfl, ?_, rfl, rfl, rfl⟩
  simp [update, hw]

/-- Witness for C5 on two concrete states sharing one live window. -/
theorem C5_uniform_fresh_upload_witness :
    (update exStateA).window_buffer =
      { size := ((exWindow.width : ℚ), (exWindow.height : ℚ))
        scale_factor := exWindow.scale_factor
        _padding := 0 } ∧
    (update exStateA).window_buffer = (update exStateB).window_buffer ∧
    (update exStateA).size = exStateA.size ∧
    (update exStateA).config = exStateA.config ∧
    (update exStateA).window = exStateA.window :=
  C5_uniform_fresh_upload exStateA exStateB rfl

/-- Claim C6: a resize to a size with a zero dimension leaves the stored
size and the surface configuration unchanged and does not reconfigure the
surface; a resize to a strictly positive size stores the new size, updates
the configuration to it, and reconfigures the surface with that
configuration. -/
theorem C6_resize_guard (s : State) (n : ℕ × ℕ) :
    ((n.1 = 0 ∨ n.2 = 0) → resize s n = (s, none)) ∧
    (0 < n.1 → 0 < n.2 →
      resize s n =
        ({ s with size := n, config := { width := n.1, height := n.2 } },
         some { width := n.1, height := n.2 })) := by
  constructor
  · intro h0
    rcases h0 with h0 | h0 <;> simp [resize, h0]
  · intro h1 h2
    simp [resize, h1, h2]

/-- Witness for C6: a zero-width resize is ignored, a positive one applied.
-/
theorem C6_resize_guard_witness :
    resize exStateA (0, 600) = (exStateA, none) ∧
    resize exStateA (1024, 768) =
      ({ exStateA with
         size := (1024, 768)
         config := { width := 1024, height := 768 } },
       some { width := 1024, height := 768 }) :=
  ⟨(C6_resize_guard exStateA (0, 600)).1 (Or.inl rfl),
   (C6_resize_guard exStateA (1024, 768)).2 (by decide) (by decide)⟩

/-- Claim C7: when frame acquisition reports "surface lost" and the stored
size is a known-good one (both dimensions positive — the only sizes the
controller ever holds after a successful surface configuration, since
`resize` stores only positive sizes), the controller reconfigures the
surface to exactly the stored size, leaves the stored size unchanged, does
not change the control flow, requests no redraw on the same tick, logs
nothing, and skips the frame (nothing is presented); the step is total, so
no crash occurs. -/
theorem C7_surface_lost_recovery (s : State) (cf : ControlFlow)
    (h1 : 0 < s.size.1) (h2 : 0 < s.size.2) :
    (redrawStep s (some SurfaceError.Lost) cf).reconfigured =
      some { width := s.size.1, height := s.size.2 } ∧
    (redrawStep s (some SurfaceError.Lost) cf).state.size = s.size ∧
    (redrawStep s (some SurfaceError.Lost) cf).control = cf ∧
    (redrawStep s (some SurfaceError.Lost) cf).redraw_requested = false ∧
    (redrawStep s (some SurfaceError.Lost) cf).presented = false ∧
    (redrawStep s (some SurfaceError.Lost) cf).logged = none := by
  simp [redrawStep, resize, update, h1, h2]

/-- Witness for C7 on a concrete state with stored size (800, 600). -/
theorem C7_surface_lost_recovery_witness :
    (redrawStep exStateA (some SurfaceError.Lost) ControlFlow.Poll).reconfigured =
      some { width := 800, height := 600 } ∧
    (redrawStep exStateA (some SurfaceError.Lost) ControlFlow.Poll).state.size =
      (800, 600) ∧
    (redrawStep exStateA (some SurfaceError.Lost) ControlFlow.Poll).control =
      ControlFlow.Poll ∧
    (redrawStep exStateA (some SurfaceError.Lost) ControlFlow.Poll).redraw_requested =
      false ∧
    (redrawStep exStateA (some SurfaceError.Lost) ControlFlow.Poll).presented =
      false ∧
    (redrawStep exStateA (some SurfaceError.Lost) ControlFlow.Poll).logged =
      none :=
  C7_surface_lost_recovery exStateA ControlFlow.Poll (by decide) (by decide)

/-- Claim C9: in the per-frame error handling, "out of memory" sets the
control flow to `Exit`; every other error leaves the control flow as it
was (so the loop continues), and every non-lost, non-fatal error is logged
with the frame dropped; a successful frame also leaves the control flow
unchanged — only the out-of-memory class ends the program. -/
theorem C9_fatal_only_oom (s : State) (cf : ControlFlow) (e : SurfaceError) :
    (redrawStep s (some SurfaceError.OutOfMemory) cf).control =
      ControlFlow.Exit ∧
    (e ≠ SurfaceError.OutOfMemory →
      (redrawStep s (some e) cf).control = cf) ∧
    (e ≠ SurfaceError.OutOfMemory → e ≠ SurfaceError.Lost →
      (redrawStep s (some e) cf).logged = some e ∧
      (redrawStep s (some e) cf).presented = false) ∧
    (redrawStep s none cf).control = cf := by
  cases e with
  | Timeout => exact ⟨rfl, fun _ => rfl, fun _ _ => ⟨rfl, rfl⟩, rfl⟩
  | Outdated => exact ⟨rfl, fun _ => rfl, fun _ _ => ⟨rfl, rfl⟩, rfl⟩
  | Lost => exact ⟨rfl, fun _ => rfl, fun _ hl => absurd rfl hl, rfl⟩
  | OutOfMemory =>
    exact ⟨rfl, fun he => absurd rfl he, fun he _ => absurd rfl he, rfl⟩

/-- Witness for C9 on a concrete state: out-of-memory exits, a timeout is
logged and the loop continues. -/
theorem C9_fatal_only_oom_witness :
    (redrawStep exStateA (some SurfaceError.OutOfMemory) ControlFlow.Poll).control =
      ControlFlow.Exit ∧
    (redrawStep exStateA (some SurfaceError.Timeout) ControlFlow.Poll).control =
      ControlFlow.Poll ∧
    (redrawStep exStateA (some SurfaceError.Timeout) ControlFlow.Poll).logged =
      some SurfaceError.Timeout ∧
    (redrawStep exStateA none ControlFlow.Poll).control = ControlFlow.Poll := by
  have h := C9_fatal_only_oom exStateA ControlFlow.Poll SurfaceError.Timeout
  exact ⟨h.1, h.2.1 (by decide), (h.2.2.1 (by decide) (by decide)).1, h.2.2.2⟩
